import Mathlib

/-!
Verification of the tessie_mcp repository core: the caching telemetry
accessor (`src/telemetry/service.py`), the API gateway client
(`src/tessie_client.py`), the command executor (`src/control/service.py`)
and the utility helpers (`src/utils.py`), shallowly embedded in Lean.
-/

namespace TessieMCP

/-- JSON-like Python values: the vehicle snapshot and all API responses are
parsed JSON, i.e. nestings of `None`, booleans, numbers, strings and dicts
(dicts are association lists with distinct keys; numbers are modelled as
rationals). -/
inductive Value where
  | vNull : Value
  | vBool : Bool → Value
  | vNum : ℚ → Value
  | vStr : String → Value
  | vDict : List (String × Value) → Value

/-- Python `dict.get(key, default)` on an association list: the value at the
first matching key, or `default` when the key is absent. -/
def dictGet (es : List (String × Value)) (k : String) (default : Value) : Value :=
  match es with
  | [] => default
  | (k₁, v) :: rest => if k₁ = k then v else dictGet rest k default

/-- Whether an association list holds the key (Python `key in dict`). -/
def hasKey (es : List (String × Value)) (k : String) : Bool :=
  match es with
  | [] => false
  | (k₁, _) :: rest => if k₁ = k then true else hasKey rest k

/-- Python `isinstance(data, dict)`. -/
def Value.isDict : Value → Bool
  | .vDict _ => true
  | _ => false

/-- `src/utils.py` `safe_get(data, *keys, default=None)`: the loop
`for key in keys: if isinstance(data, dict): data = data.get(key, default)
else: return default` followed by `return data`.
`Telemetry._get_nested` in `src/telemetry/service.py` runs the identical
loop on the freshly fetched snapshot. -/
def safe_get (data : Value) (keys : List String) (default : Value) : Value :=
  match keys with
  | [] => data
  | k :: ks =>
    match data with
    | Value.vDict es => safe_get (dictGet es k default) ks default
    | _ => default

/-- The lookup of `keys` in `data` is broken: some segment of the path is
absent from the dict at that step, or the value traversed at some step is
not a dict. (A non-dict reached only after the final key does not break
the lookup: the loop is already over.) -/
def lookupBroken (data : Value) (keys : List String) : Bool :=
  match keys with
  | [] => false
  | k :: ks =>
    match data with
    | Value.vDict es =>
      if hasKey es k then lookupBroken (dictGet es k Value.vNull) ks else true
    | _ => true

/-- Errors raised by `TessieClient` (`src/exceptions.py`):
`AuthenticationError` carries only a message; `TessieAPIError` carries a
message, an optional HTTP status code and optional raw response data;
`VehicleNotFoundError` carries the VIN (message built in its constructor). -/
inductive ClientError where
  | authenticationError : String → ClientError
  | tessieAPIError : String → Option Nat → Option Value → ClientError
  | vehicleNotFoundError : String → ClientError

/-- The `status_code` attribute of a raised error (`None` for errors that are
not `TessieAPIError`). -/
def ClientError.statusCode : ClientError → Option Nat
  | .authenticationError _ => none
  | .tessieAPIError _ sc _ => sc
  | .vehicleNotFoundError _ => none

/-- The `response_data` attribute of a raised error. -/
def ClientError.responseData : ClientError → Option Value
  | .authenticationError _ => none
  | .tessieAPIError _ _ rd => rd
  | .vehicleNotFoundError _ => none

/-- `TessieAPIError.__init__`: prefixes the message with
`"Tessie API error (HTTP \x7bstatus_code\x7d): "` when a (truthy) status
code is given, else with `"Tessie API error: "`. -/
def mkTessieAPIError (message : String) (status_code : Option Nat)
    (response_data : Option Value) : ClientError :=
  ClientError.tessieAPIError
    (match status_code with
     | some c =>
       if c = 0 then "Tessie API error: " ++ message
       else "Tessie API error (HTTP " ++ toString c ++ "): " ++ message
     | none => "Tessie API error: " ++ message)
    status_code response_data

/-- The configured refresh interval of a `Telemetry` instance: the literal
string `"realtime"`, or a number of minutes. -/
inductive Interval where
  | realtime : Interval
  | minutes : ℚ → Interval

/-- The mutable state of a `Telemetry` instance (`src/telemetry/service.py`):
the VIN, the configured interval, and the cached snapshot with its fetch
timestamp (`_cache` / `_cache_time`, both initially `None`). -/
structure TelemetryState where
  vin : String
  interval : Interval
  cache : Option Value
  cache_time : Option ℚ

/-- `Telemetry._should_refresh` at wall-clock time `now` (seconds):
`True` in realtime mode, `True` when either `_cache` or `_cache_time` is
`None`, else `(now - _cache_time) / 60 > interval`. -/
def should_refresh (st : TelemetryState) (now : ℚ) : Bool :=
  match st.interval with
  | Interval.realtime => true
  | Interval.minutes m =>
    match st.cache, st.cache_time with
    | some _, some t => decide ((now - t) / 60 > m)
    | _, _ => true

/-- Errors propagating out of `Telemetry._fetch_data`: a `TessieClient`
exception from the upstream call, or the `ValueError` raised when the
fetched state is `None`. -/
inductive FetchError where
  | clientError : ClientError → FetchError
  | valueError : String → FetchError

/-- Outcome of one `_fetch_data` call: the instance state afterwards, the
returned snapshot or raised error, and whether an upstream network call was
made. -/
structure FetchOutcome where
  state : TelemetryState
  result : Except FetchError Value
  networkCall : Bool

/-- The refresh branch of `Telemetry._fetch_data` (inside the lock, after
the cache-hit early return): calls `client.get_vehicle_state(vin)` — whose
outcome is the `upstream` parameter, a raised error, `None`, or a state
dict — raises `ValueError` on `None`, and on success assigns `_cache` and
`_cache_time` together. -/
def fetch_go (st : TelemetryState) (now : ℚ)
    (upstream : Except ClientError (Option Value)) : FetchOutcome :=
  match upstream with
  | Except.error e => ⟨st, Except.error (FetchError.clientError e), true⟩
  | Except.ok none =>
    ⟨st, Except.error (FetchError.valueError
      ("Vehicle with VIN \x27" ++ st.vin ++ "\x27 not found")), true⟩
  | Except.ok (some v) =>
    ⟨{ st with cache := some v, cache_time := some now }, Except.ok v, true⟩

/-- `Telemetry._fetch_data`: under the lock, return the cached snapshot when
`not _should_refresh() and _cache is not None`, else refresh. -/
def fetch_data (st : TelemetryState) (now : ℚ)
    (upstream : Except ClientError (Option Value)) : FetchOutcome :=
  if should_refresh st now = false then
    match st.cache with
    | some c => ⟨st, Except.ok c, false⟩
    | none => fetch_go st now upstream
  else fetch_go st now upstream

/-- `src/constants.py` `MAX_API_RETRIES`. -/
def MAX_API_RETRIES : Nat := 3

/-- `src/constants.py` `RETRY_BACKOFF_FACTOR`. -/
def RETRY_BACKOFF_FACTOR : Nat := 2

/-- One observed HTTP exchange: a response with a status code and parsed
JSON body, or a raised `requests.exceptions.Timeout`. -/
inductive HttpResp where
  | status : Nat → Value → HttpResp
  | timeout : HttpResp

/-- Outcome of `TessieClient._make_request`: the returned JSON or raised
error, the list of backoff sleeps performed (seconds, in order), and the
number of HTTP attempts made. -/
structure ReqResult where
  result : Except ClientError Value
  waits : List Nat
  attempts : Nat

/-- Modelled from the `requests` library (not part of this repository):
`Response.raise_for_status` raises `HTTPError` exactly for status codes in
[400, 600), and the text of the raised error begins with the status code
followed by "Client Error" or "Server Error"; only this text — never the
status code or body as structured data — reaches the `TessieAPIError`
constructed in the `except RequestException` handler. -/
def httpErrorStr (code : Nat) : String :=
  if code < 500 then toString code ++ " Client Error"
  else toString code ++ " Server Error"

/-- `TessieClient._make_request`, with the response to the `n`-th attempt
given by `resp n`. The source guards each retry with
`retry_count < MAX_API_RETRIES`; here the remaining-retry `budget`
(maintained as `MAX_API_RETRIES - retry_count`, so `budget > 0` exactly
when the source guard holds) drives the recursion structurally. Branches in
source order: 401/403 raise `AuthenticationError`; 429 sleeps
`RETRY_BACKOFF_FACTOR ** retry_count` and retries, or raises the
rate-limited `TessieAPIError` once retries are exhausted; any other
status ≥ 400 makes `raise_for_status` raise, caught and re-raised as a
generic `TessieAPIError`; otherwise the parsed body is returned. A
`Timeout` follows the same retry schedule as 429. -/
def make_request_go (resp : Nat → HttpResp) : Nat → Nat → ReqResult
  | retry_count, budget =>
    match resp retry_count with
    | HttpResp.timeout =>
      match budget with
      | b + 1 =>
        let r := make_request_go resp (retry_count + 1) b
        ⟨r.result, RETRY_BACKOFF_FACTOR ^ retry_count :: r.waits, r.attempts + 1⟩
      | 0 =>
        ⟨Except.error (mkTessieAPIError
          ("Request timeout after " ++ toString MAX_API_RETRIES ++ " retries")
          none none), [], 1⟩
    | HttpResp.status code body =>
      if code = 401 ∨ code = 403 then
        ⟨Except.error (ClientError.authenticationError
          ("Authentication failed (HTTP " ++ toString code
            ++ "). Please check your TESSIE_TOKEN.")), [], 1⟩
      else if code = 429 then
        match budget with
        | b + 1 =>
          let r := make_request_go resp (retry_count + 1) b
          ⟨r.result, RETRY_BACKOFF_FACTOR ^ retry_count :: r.waits,
            r.attempts + 1⟩
        | 0 =>
          ⟨Except.error (mkTessieAPIError
            "Rate limit exceeded. Please try again later." (some code) none),
            [], 1⟩
      else if 400 ≤ code then
        ⟨Except.error (mkTessieAPIError ("Request failed: " ++ httpErrorStr code)
          none none), [], 1⟩
      else
        ⟨Except.ok body, [], 1⟩

/-- `TessieClient._make_request(method, url, params, retry_count)` (the
HTTP method, url and params do not affect the retry/error logic). -/
def make_request (resp : Nat → HttpResp) (retry_count : Nat) : ReqResult :=
  make_request_go resp retry_count (MAX_API_RETRIES - retry_count)

/-- The `_get_nested` reads issued by `Telemetry.get_battery_summary`, in
order: `_get_battery_level`, `_get_energy_remaining`, `_get_charging_state`,
`_get_minutes_to_full_charge`, `_get_charge_limit_soc`, each a key path with
its default. -/
def batterySummaryReads : List (List String × Value) :=
  [(["charge_state", "battery_level"], Value.vNum 0),
   (["charge_state", "energy_remaining"], Value.vNum 0),
   (["charge_state", "charging_state"], Value.vStr "Unknown"),
   (["charge_state", "minutes_to_full_charge"], Value.vNum 0),
   (["charge_state", "charge_limit_soc"], Value.vNum 80)]

/-- The `_get_nested` reads issued by `Telemetry.get_location`, in order:
`_get_latitude`, `_get_longitude`, `_get_heading`. -/
def locationReads : List (List String × Value) :=
  [(["drive_state", "latitude"], Value.vNum 0),
   (["drive_state", "longitude"], Value.vNum 0),
   (["drive_state", "heading"], Value.vNum 0)]

/-- Runs a sequence of `_get_nested` reads (each one `_fetch_data` call)
against the instance state, threading the state and drawing the `idx`-th
upstream response on each network call, and returns the total number of
upstream network calls made; a raised fetch error aborts the sequence (the
exception propagates out of the composite read). -/
def runReads (now : ℚ) (ups : Nat → Except ClientError (Option Value)) :
    TelemetryState → Nat → List (List String × Value) → Nat
  | _, _, [] => 0
  | st, idx, _p :: rest =>
    let fo := fetch_data st now (ups idx)
    let calls := if fo.networkCall then 1 else 0
    match fo.result with
    | Except.error _ => calls
    | Except.ok _ => calls + runReads now ups fo.state (idx + calls) rest

/-- `src/constants.py` `COMPASS_DIRECTIONS`. -/
def COMPASS_DIRECTIONS : List String :=
  ["N", "NE", "E", "SE", "S", "SW", "W", "NW"]

/-- `src/constants.py` `DEGREES_PER_DIRECTION`. -/
def DEGREES_PER_DIRECTION : Nat := 45

/-- `src/utils.py` `get_compass_direction(heading)`:
`COMPASS_DIRECTIONS[round(heading / DEGREES_PER_DIRECTION) % len(COMPASS_DIRECTIONS)]`.
`Telemetry.get_location` inlines the identical formula
(`round(heading / 45) % 8` over the same direction list). Headings are the
API's non-negative integers, so `heading / 45` is never a half-integer and
Mathlib `round` (half up) agrees with Python `round` (half to even); the
index is `< 8`, so `getD` never falls back to its default. -/
def get_compass_direction (heading : Nat) : String :=
  COMPASS_DIRECTIONS.getD
    ((round ((heading : ℚ) / (DEGREES_PER_DIRECTION : ℚ))).toNat
      % COMPASS_DIRECTIONS.length) "N"

/-- `src/utils.py` `sanitize_vin_for_logging(vin)`: the invalid marker for a
falsy (empty) VIN or one shorter than 9 characters, else the first 5
characters, four asterisks, and the last 4 characters
(`vin[:5] + "****" + vin[-4:]`). -/
def sanitize_vin_for_logging (vin : String) : String :=
  if vin = "" ∨ vin.length < 9 then "***INVALID_VIN***"
  else vin.take 5 ++ "****" ++ vin.drop (vin.length - 4)

/-- Python truthiness (`if result:`) of a JSON value: `None`, `False`, `0`,
`""` and empty containers are falsy. -/
def isTruthy : Value → Bool
  | Value.vNull => false
  | Value.vBool b => b
  | Value.vNum q => decide (q ≠ 0)
  | Value.vStr s => decide (s ≠ "")
  | Value.vDict es => !es.isEmpty

/-- Python `str(value)` as used by the f-strings building error messages.
Exact for `None`, booleans and strings — the only cases the claims touch;
the renderings of numbers and dicts approximate CPython's. -/
def pyStr : Value → String
  | Value.vNull => "None"
  | Value.vBool true => "True"
  | Value.vBool false => "False"
  | Value.vStr s => s
  | Value.vNum q => toString q
  | Value.vDict _ => "\x7b...\x7d"

/-- `VehicleCommandError.__init__` (`src/exceptions.py`): the message is
`"Failed to execute command \x27\x7bcommand\x7d\x27"`, then `": \x7breason\x7d"`
when `reason` is truthy, then `" (VIN: \x7bvin\x7d)"` when `vin` is truthy. -/
def mkVehicleCommandErrorMessage (command : String) (reason : Value)
    (vin : String) : String :=
  "Failed to execute command \x27" ++ command ++ "\x27"
  ++ (if isTruthy reason then ": " ++ pyStr reason else "")
  ++ (if vin = "" then "" else " (VIN: " ++ vin ++ ")")

/-- Outcome of a `Control` command (`src/control/service.py`): a returned
message string, or a raised `VehicleCommandError` (carrying its message). -/
inductive ControlOutcome where
  | ok : String → ControlOutcome
  | commandError : String → ControlOutcome

/-- `Control.honk_horn` on an upstream command response `response`:
`result = response.get("result", False)`; if truthy, the success string,
else a `VehicleCommandError("honk_horn", response.get("reason",
"Unknown error"), vin)` is raised. (The `except` arms that translate
client exceptions into strings are not reached on a well-formed
response.) -/
def honk_horn (vin : String) (response : List (String × Value)) :
    ControlOutcome :=
  if isTruthy (dictGet response "result" (Value.vBool false)) then
    ControlOutcome.ok "Successfully honked the horn!"
  else
    ControlOutcome.commandError
      (mkVehicleCommandErrorMessage "honk_horn"
        (dictGet response "reason" (Value.vStr "Unknown error")) vin)

/-- `Control.flash_lights`: identical to `honk_horn` up to the command name
and success string. -/
def flash_lights (vin : String) (response : List (String × Value)) :
    ControlOutcome :=
  if isTruthy (dictGet response "result" (Value.vBool false)) then
    ControlOutcome.ok "Successfully flashed the lights!"
  else
    ControlOutcome.commandError
      (mkVehicleCommandErrorMessage "flash_lights"
        (dictGet response "reason" (Value.vStr "Unknown error")) vin)

theorem dictGet_of_hasKey (es : List (String × Value)) (k : String)
    (h : hasKey es k = true) (d₁ d₂ : Value) :
    dictGet es k d₁ = dictGet es k d₂ := by
  induction es with
  | nil => simp [hasKey] at h
  | cons p rest ih =>
    by_cases hk : p.1 = k
    · simp [dictGet, hk]
    · simp [hasKey, hk] at h
      simp [dictGet, hk, ih h]

theorem dictGet_of_not_hasKey (es : List (String × Value)) (k : String)
    (h : hasKey es k = false) (d : Value) :
    dictGet es k d = d := by
  induction es with
  | nil => rfl
  | cons p rest ih =>
    by_cases hk : p.1 = k
    · simp [hasKey, hk] at h
    · simp [hasKey, hk] at h
      simp [dictGet, hk, ih h]

/-- Once the running value is the (non-dict) default, the loop returns the
default no matter how many keys remain. -/
theorem safe_get_of_notDict (d : Value) (hd : d.isDict = false) (ks : List String) :
    safe_get d ks d = d := by
  cases ks with
  | nil => rfl
  | cons k ks => cases d <;> simp_all [safe_get, Value.isDict]

theorem fetch_go_networkCall (st : TelemetryState) (now : ℚ)
    (up : Except ClientError (Option Value)) :
    (fetch_go st now up).networkCall = true := by
  cases up with
  | error e => rfl
  | ok o => cases o <;> rfl

/-- C4 counterexample: the claim fails when the supplied default is itself a
mapping. On `data = \x7b\x7d`, `keys = ["a", "b"]`,
`default = \x7b"b": 42\x7d`, the segment `"a"` is absent, yet `safe_get`
returns `42` — the loop substitutes the default for the missing key and then
traverses inside it — so the result is not the supplied default. -/
theorem safe_get_dict_default_cex :
    safe_get (Value.vDict []) ["a", "b"] (Value.vDict [("b", Value.vNum 42)])
      = Value.vNum 42
    ∧ lookupBroken (Value.vDict []) ["a", "b"] = true
    ∧ Value.vNum 42 ≠ Value.vDict [("b", Value.vNum 42)] :=
  ⟨rfl, rfl, fun h => Value.noConfusion h⟩

/-- C4 (amended): `safe_get` (and `Telemetry._get_nested`, which runs the
identical loop) is a total function, and whenever the supplied default is
not itself a mapping, it returns the default as soon as any segment of the
path is absent or any traversed value is not a mapping. When the default is
a mapping, traversal may continue inside the default substituted for an
absent key (see the counterexample). -/
theorem safe_get_default_on_broken (data : Value) (keys : List String)
    (default : Value) (hd : default.isDict = false)
    (hb : lookupBroken data keys = true) :
    safe_get data keys default = default := by
  induction keys generalizing data with
  | nil => simp [lookupBroken] at hb
  | cons k ks ih =>
    cases data with
    | vDict es =>
      by_cases hk : hasKey es k = true
      · have hb₂ : lookupBroken (dictGet es k Value.vNull) ks = true := by
          simpa [lookupBroken, hk] using hb
        have : dictGet es k default = dictGet es k Value.vNull :=
          dictGet_of_hasKey es k hk default Value.vNull
        simpa [safe_get, this] using ih _ hb₂
      · have hk₂ : hasKey es k = false := by simpa using hk
        have : dictGet es k default = default := dictGet_of_not_hasKey es k hk₂ default
        simpa [safe_get, this] using safe_get_of_notDict default hd ks
    | vNull => simp [safe_get]
    | vBool b => simp [safe_get]
    | vNum q => simp [safe_get]
    | vStr s => simp [safe_get]

/-- C4 witness: a concrete broken lookup — the path traverses the non-mapping
value `1` — returns the non-mapping default `None`. -/
theorem safe_get_default_on_broken_witness :
    safe_get (Value.vDict [("a", Value.vNum 1)]) ["a", "b"] Value.vNull
      = Value.vNull :=
  safe_get_default_on_broken (Value.vDict [("a", Value.vNum 1)]) ["a", "b"]
    Value.vNull rfl rfl

theorem fetch_data_realtime_ok (st : TelemetryState) (now : ℚ) (snap : Value)
    (h : st.interval = Interval.realtime) :
    fetch_data st now (Except.ok (some snap))
      = ⟨{ st with cache := some snap, cache_time := some now },
          Except.ok snap, true⟩ := by
  have hs : should_refresh st now = true := by simp [should_refresh, h]
  simp [fetch_data, hs, fetch_go]

theorem runReads_realtime (now : ℚ) (snap : Value)
    (paths : List (List String × Value)) :
    ∀ (st : TelemetryState) (idx : Nat), st.interval = Interval.realtime →
      runReads now (fun _ => Except.ok (some snap)) st idx paths
        = paths.length := by
  induction paths with
  | nil => intro st idx _; rfl
  | cons p rest ih =>
    intro st idx h
    rw [runReads, fetch_data_realtime_ok st now snap h]
    have hrec := ih { st with cache := some snap, cache_time := some now }
      (idx + 1) h
    simp [hrec]
    omega

/-- C2 counterexample: with `interval = "realtime"` and every upstream call
succeeding, the composite read `get_battery_summary` performs 5 upstream
network calls (one per `_get_nested` field read), not exactly one. -/
theorem realtime_single_call_cex :
    runReads 0 (fun _ => Except.ok (some (Value.vDict [])))
        ⟨"VIN", Interval.realtime, none, none⟩ 0 batterySummaryReads = 5
    ∧ 5 ≠ 1 :=
  ⟨runReads_realtime 0 (Value.vDict []) batterySummaryReads
      ⟨"VIN", Interval.realtime, none, none⟩ 0 rfl,
   by omega⟩

/-- C2 (amended): with `interval = "realtime"`, every single `_fetch_data`
invocation — hence every cache-backed field read — performs an upstream
network call regardless of prior cache state, and a composite read performs
one network call per `_get_nested` field read: 5 for `get_battery_summary`
and 3 for `get_location` when the upstream calls succeed. -/
theorem realtime_always_fetches (st : TelemetryState) (now : ℚ) (snap : Value)
    (h : st.interval = Interval.realtime) :
    (∀ up, (fetch_data st now up).networkCall = true)
    ∧ runReads now (fun _ => Except.ok (some snap)) st 0 batterySummaryReads = 5
    ∧ runReads now (fun _ => Except.ok (some snap)) st 0 locationReads = 3 := by
  refine ⟨fun up => ?_, ?_, ?_⟩
  · have hs : should_refresh st now = true := by simp [should_refresh, h]
    simp [fetch_data, hs, fetch_go_networkCall]
  · exact runReads_realtime now snap batterySummaryReads st 0 h
  · exact runReads_realtime now snap locationReads st 0 h

/-- C2 witness: a concrete realtime instance with a pre-populated cache
still fetches on a read, and its composite reads make 5 and 3 calls. -/
theorem realtime_always_fetches_witness :
    ((fetch_data ⟨"VIN", Interval.realtime, some Value.vNull, some 0⟩ 0
        (Except.ok (some Value.vNull))).networkCall = true)
    ∧ runReads 0 (fun _ => Except.ok (some Value.vNull))
        ⟨"VIN", Interval.realtime, some Value.vNull, some 0⟩ 0
        batterySummaryReads = 5
    ∧ runReads 0 (fun _ => Except.ok (some Value.vNull))
        ⟨"VIN", Interval.realtime, some Value.vNull, some 0⟩ 0
        locationReads = 3 :=
  ⟨(realtime_always_fetches ⟨"VIN", Interval.realtime, some Value.vNull, some 0⟩
      0 Value.vNull rfl).1 _,
   (realtime_always_fetches ⟨"VIN", Interval.realtime, some Value.vNull, some 0⟩
      0 Value.vNull rfl).2.1,
   (realtime_always_fetches ⟨"VIN", Interval.realtime, some Value.vNull, some 0⟩
      0 Value.vNull rfl).2.2⟩

/-- C1: with a numeric TTL `t > 0` and a cached snapshot fetched at time
`fAt` (seconds), a read at time `now` with `(now - fAt) / 60 ≤ t` is served
from the cache with no network call and leaves the state unchanged — in
particular elapsed time exactly equal to the TTL does not refresh — while
`(now - fAt) / 60 > t` triggers a refresh network call. -/
theorem ttl_strict_boundary (st : TelemetryState) (t fAt now : ℚ) (c : Value)
    (up : Except ClientError (Option Value))
    (hi : st.interval = Interval.minutes t) (_ht : 0 < t)
    (hc : st.cache = some c) (hf : st.cache_time = some fAt) :
    ((now - fAt) / 60 ≤ t →
      fetch_data st now up = ⟨st, Except.ok c, false⟩)
    ∧ (t < (now - fAt) / 60 → (fetch_data st now up).networkCall = true) := by
  have hs : should_refresh st now = decide ((now - fAt) / 60 > t) := by
    simp [should_refresh, hi, hc, hf]
  constructor
  · intro h
    have hfalse : should_refresh st now = false := by
      rw [hs]; simpa using not_lt.mpr h
    simp [fetch_data, hfalse, hc]
  · intro h
    have htrue : should_refresh st now = true := by
      rw [hs]; simpa using h
    simp [fetch_data, htrue, fetch_go_networkCall]

/-- C1 witness: with TTL 5 minutes and a snapshot fetched at time 0, a read
at 300 s (exactly 5 min elapsed) is a cache hit with no network call, and a
read at 301 s triggers a network call. -/
theorem ttl_strict_boundary_witness :
    (fetch_data ⟨"VIN", Interval.minutes 5, some Value.vNull, some 0⟩ 300
        (Except.ok (some Value.vNull))
      = ⟨⟨"VIN", Interval.minutes 5, some Value.vNull, some 0⟩,
          Except.ok Value.vNull, false⟩)
    ∧ (fetch_data ⟨"VIN", Interval.minutes 5, some Value.vNull, some 0⟩ 301
        (Except.ok (some Value.vNull))).networkCall = true :=
  ⟨(ttl_strict_boundary _ 5 0 300 Value.vNull _ rfl (by norm_num) rfl rfl).1
      (by norm_num),
   (ttl_strict_boundary _ 5 0 301 Value.vNull _ rfl (by norm_num) rfl rfl).2
      (by norm_num)⟩

theorem fetch_go_atomic (st : TelemetryState) (now : ℚ)
    (up : Except ClientError (Option Value)) :
    (∀ e, (fetch_go st now up).result = Except.error e →
        (fetch_go st now up).state = st)
    ∧ (∀ v, (fetch_go st now up).result = Except.ok v →
        (fetch_go st now up).state.cache = some v
        ∧ (fetch_go st now up).state.cache_time = some now) := by
  cases up with
  | error e => exact ⟨fun x h => rfl, fun v h => by simp [fetch_go] at h⟩
  | ok o =>
    cases o with
    | none => exact ⟨fun x h => rfl, fun v h => by simp [fetch_go] at h⟩
    | some w =>
      refine ⟨fun x h => by simp [fetch_go] at h, fun v h => ?_⟩
      have hv : w = v := by simpa [fetch_go] using h
      subst hv
      exact ⟨rfl, rfl⟩

/-- C3: a `_fetch_data` call whose result is a raised error (upstream
failure or absent state) leaves the instance state — in particular `_cache`
and `_cache_time` — unchanged, and a refresh network call that succeeds
with snapshot `v` sets `_cache = v` and `_cache_time = now` together, so
the snapshot and its timestamp always come from the same fetch. -/
theorem refresh_swap_atomic (st : TelemetryState) (now : ℚ)
    (up : Except ClientError (Option Value)) :
    (∀ e, (fetch_data st now up).result = Except.error e →
        (fetch_data st now up).state = st)
    ∧ (∀ v, (fetch_data st now up).networkCall = true →
        (fetch_data st now up).result = Except.ok v →
        (fetch_data st now up).state.cache = some v
        ∧ (fetch_data st now up).state.cache_time = some now) := by
  by_cases hs : should_refresh st now = false
  · cases hc : st.cache with
    | some c =>
      constructor
      · intro e he; simp [fetch_data, hs, hc] at he
      · intro v hn; simp [fetch_data, hs, hc] at hn
    | none =>
      constructor
      · intro e he
        have := (fetch_go_atomic st now up).1 e
        simpa [fetch_data, hs, hc] using this (by simpa [fetch_data, hs, hc] using he)
      · intro v _ hv
        have := (fetch_go_atomic st now up).2 v
        simpa [fetch_data, hs, hc] using this (by simpa [fetch_data, hs, hc] using hv)
  · constructor
    · intro e he
      have := (fetch_go_atomic st now up).1 e
      simpa [fetch_data, hs] using this (by simpa [fetch_data, hs] using he)
    · intro v _ hv
      have := (fetch_go_atomic st now up).2 v
      simpa [fetch_data, hs] using this (by simpa [fetch_data, hs] using hv)

/-- C3 witness: a concrete failing refresh (upstream authentication error at
10 min elapsed under a 5 min TTL) leaves the prior snapshot/timestamp pair
untouched. -/
theorem refresh_swap_atomic_witness :
    (fetch_data ⟨"VIN", Interval.minutes 5, some Value.vNull, some 0⟩ 600
        (Except.error (ClientError.authenticationError "bad token"))).state
      = ⟨"VIN", Interval.minutes 5, some Value.vNull, some 0⟩ := by
  apply (refresh_swap_atomic ⟨"VIN", Interval.minutes 5, some Value.vNull, some 0⟩
      600 (Except.error (ClientError.authenticationError "bad token"))).1
    (FetchError.clientError (ClientError.authenticationError "bad token"))
  have hs : should_refresh ⟨"VIN", Interval.minutes 5, some Value.vNull, some 0⟩ 600
      = true := by
    simp [should_refresh]
    norm_num
  simp [fetch_data, hs, fetch_go]

theorem retry_backoff_step (resp : Nat → HttpResp) (rc : Nat) (j : Value)
    (hrc : rc < MAX_API_RETRIES) (h : resp rc = HttpResp.status 429 j) :
    make_request resp rc
      = ⟨(make_request resp (rc + 1)).result,
         RETRY_BACKOFF_FACTOR ^ rc :: (make_request resp (rc + 1)).waits,
         (make_request resp (rc + 1)).attempts + 1⟩ := by
  have hb : MAX_API_RETRIES - rc = (MAX_API_RETRIES - (rc + 1)) + 1 := by
    simp only [MAX_API_RETRIES] at hrc ⊢; omega
  rw [make_request, hb, make_request_go, h]
  simp [make_request]

/-- C5: each 429 before the retry maximum (3) is retried after a backoff
wait of `2 ^ retry_count` seconds; three consecutive 429s followed by a 200
succeed after waits 1 s, 2 s, 4 s (cumulatively 1+2+4 seconds) on the
fourth attempt; and four consecutive 429s fail with the rate-limited
`TessieAPIError` carrying status code 429. -/
theorem rate_limit_retry_backoff (body junk : Value) :
    (∀ (resp : Nat → HttpResp) (rc : Nat) (j : Value),
       rc < MAX_API_RETRIES → resp rc = HttpResp.status 429 j →
       make_request resp rc
         = ⟨(make_request resp (rc + 1)).result,
            RETRY_BACKOFF_FACTOR ^ rc :: (make_request resp (rc + 1)).waits,
            (make_request resp (rc + 1)).attempts + 1⟩)
    ∧ (make_request
        (fun n => if n < 3 then HttpResp.status 429 junk
                  else HttpResp.status 200 body) 0
        = ⟨Except.ok body, [1, 2, 4], 4⟩)
    ∧ ((make_request
        (fun n => if n < 3 then HttpResp.status 429 junk
                  else HttpResp.status 200 body) 0).waits.sum = 1 + 2 + 4)
    ∧ (make_request (fun _ => HttpResp.status 429 junk) 0
        = ⟨Except.error (mkTessieAPIError
            "Rate limit exceeded. Please try again later." (some 429) none),
           [1, 2, 4], 4⟩) :=
  ⟨retry_backoff_step, rfl, rfl, rfl⟩

/-- C5 witness: the retry step applied concretely — a 429 on the first
attempt causes a 1 s wait and a second attempt that here succeeds. -/
theorem rate_limit_retry_backoff_witness :
    make_request
      (fun n => if n < 1 then HttpResp.status 429 Value.vNull
                else HttpResp.status 200 (Value.vStr "ok")) 0
      = ⟨Except.ok (Value.vStr "ok"), [1], 2⟩ := by
  rw [(rate_limit_retry_backoff (Value.vStr "ok") Value.vNull).1
    (fun n => if n < 1 then HttpResp.status 429 Value.vNull
              else HttpResp.status 200 (Value.vStr "ok")) 0 Value.vNull
    (by simp [MAX_API_RETRIES]) rfl]
  rfl

/-- C6: a response with status 401 or 403 fails immediately with
`AuthenticationError`: a single attempt, no backoff wait, no retry. -/
theorem auth_failure_no_retry (resp : Nat → HttpResp) (code : Nat)
    (junk : Value) (h : resp 0 = HttpResp.status code junk)
    (hc : code = 401 ∨ code = 403) :
    make_request resp 0
      = ⟨Except.error (ClientError.authenticationError
          ("Authentication failed (HTTP " ++ toString code
            ++ "). Please check your TESSIE_TOKEN.")), [], 1⟩ := by
  rw [make_request]
  show make_request_go resp 0 (Nat.succ 2) = _
  rw [make_request_go, h]
  simp [hc]

/-- C6 witness: a concrete 401 response fails at once with one attempt and
an empty wait list. -/
theorem auth_failure_no_retry_witness :
    make_request (fun _ => HttpResp.status 401 Value.vNull) 0
      = ⟨Except.error (ClientError.authenticationError
          ("Authentication failed (HTTP " ++ toString 401
            ++ "). Please check your TESSIE_TOKEN.")), [], 1⟩ :=
  auth_failure_no_retry (fun _ => HttpResp.status 401 Value.vNull) 401
    Value.vNull rfl (Or.inl rfl)

/-- C7 counterexample: a 500 response does fail immediately, but the raised
error is the generic `TessieAPIError` from the `RequestException` handler:
its `status_code` attribute is `None` — not 500 — and its `response_data`
attribute is `None` — the response body "boom" is not carried. -/
theorem upstream_error_fields_cex :
    ((make_request (fun _ => HttpResp.status 500 (Value.vStr "boom")) 0).result
      = Except.error (mkTessieAPIError ("Request failed: " ++ httpErrorStr 500)
          none none))
    ∧ (mkTessieAPIError ("Request failed: " ++ httpErrorStr 500)
        none none).statusCode = none
    ∧ (mkTessieAPIError ("Request failed: " ++ httpErrorStr 500)
        none none).responseData = none
    ∧ (none : Option Nat) ≠ some 500 :=
  ⟨rfl, rfl, rfl, fun h => Option.noConfusion h⟩

/-- C7 (amended): a response whose status is in [400, 600) and is none of
401, 403, 429 fails immediately without retrying — one attempt, no waits —
raising a `TessieAPIError` whose message embeds the HTTP library error text
(which names the status code) but whose `status_code` and `response_data`
attributes are `None`: the status code and body are not carried as
structured fields. -/
theorem upstream_error_no_retry (resp : Nat → HttpResp) (code : Nat)
    (body : Value) (h : resp 0 = HttpResp.status code body)
    (h4 : 400 ≤ code) (hn1 : code ≠ 401) (hn3 : code ≠ 403)
    (hn9 : code ≠ 429) :
    make_request resp 0
      = ⟨Except.error (mkTessieAPIError ("Request failed: " ++ httpErrorStr code)
          none none), [], 1⟩ := by
  rw [make_request]
  show make_request_go resp 0 (Nat.succ 2) = _
  rw [make_request_go, h]
  simp [hn1, hn3, hn9, h4]

/-- C7 witness: a concrete 502 response fails at once with the generic
error. -/
theorem upstream_error_no_retry_witness :
    make_request (fun _ => HttpResp.status 502 Value.vNull) 0
      = ⟨Except.error (mkTessieAPIError ("Request failed: " ++ httpErrorStr 502)
          none none), [], 1⟩ :=
  upstream_error_no_retry (fun _ => HttpResp.status 502 Value.vNull) 502
    Value.vNull rfl (by omega) (by omega) (by omega) (by omega)

theorem compass_eval (h : Nat) (i : ℤ) (hi : round ((h : ℚ) / 45) = i) :
    get_compass_direction h = COMPASS_DIRECTIONS.getD (i.toNat % 8) "N" := by
  have h45 : ((DEGREES_PER_DIRECTION : Nat) : ℚ) = 45 := by
    simp [DEGREES_PER_DIRECTION]
  simp only [get_compass_direction, h45, hi, COMPASS_DIRECTIONS]
  rfl

/-- C8 counterexample: heading 44 is only 1° from the NE sector centre at
45° and 44° from N, so the code rounds it to NE:
`get_compass_direction 44 = "NE"`, not `"N"` as the claim states. -/
theorem compass_44_cex :
    get_compass_direction 44 = "NE" ∧ "NE" ≠ "N" :=
  ⟨by rw [compass_eval 44 1 (by rw [round_eq]; norm_num)]; rfl, by decide⟩

/-- C8 (amended): the heading-to-compass conversion buckets by rounding
`heading / 45` to the nearest of the 8 sectors and wraps at 360: heading
0 → "N", 22 → "N", 23 → "NE", 44 → "NE" (not "N"), 45 → "NE", 46 → "NE",
360 → "N". -/
theorem compass_bucketing :
    get_compass_direction 0 = "N"
    ∧ get_compass_direction 22 = "N"
    ∧ get_compass_direction 23 = "NE"
    ∧ get_compass_direction 44 = "NE"
    ∧ get_compass_direction 45 = "NE"
    ∧ get_compass_direction 46 = "NE"
    ∧ get_compass_direction 360 = "N" := by
  refine ⟨?_, ?_, ?_, ?_, ?_, ?_, ?_⟩
  · rw [compass_eval 0 0 (by rw [round_eq]; norm_num)]; rfl
  · rw [compass_eval 22 0 (by rw [round_eq]; norm_num)]; rfl
  · rw [compass_eval 23 1 (by rw [round_eq]; norm_num)]; rfl
  · rw [compass_eval 44 1 (by rw [round_eq]; norm_num)]; rfl
  · rw [compass_eval 45 1 (by rw [round_eq]; norm_num)]; rfl
  · rw [compass_eval 46 1 (by rw [round_eq]; norm_num)]; rfl
  · rw [compass_eval 360 8 (by rw [round_eq]; norm_num)]; rfl

theorem mkVCEM_contains_reason (command r vin : String) :
    ∃ s t, mkVehicleCommandErrorMessage command (Value.vStr r) vin
      = s ++ r ++ t := by
  by_cases hr : r = ""
  · subst hr
    exact ⟨"Failed to execute command \x27" ++ command ++ "\x27",
           (if vin = "" then "" else " (VIN: " ++ vin ++ ")"),
           by simp [mkVehicleCommandErrorMessage, isTruthy]⟩
  · refine ⟨("Failed to execute command \x27" ++ command ++ "\x27") ++ ": ",
      (if vin = "" then "" else " (VIN: " ++ vin ++ ")"), ?_⟩
    have htr : isTruthy (Value.vStr r) = true := by simp [isTruthy, hr]
    simp only [mkVehicleCommandErrorMessage, htr, if_true, pyStr]
    rw [String.append_assoc
      ("Failed to execute command \x27" ++ command ++ "\x27") ": " r]

/-- C9: for `honk_horn` and `flash_lights`, a response with falsy `result`
raises a `VehicleCommandError` whose message includes the `reason` string
when the field is present, and includes the generic "Unknown error" marker
when `reason` is absent; a truthy `result` yields the success message. -/
theorem command_failure_reason (vin r : String)
    (resp : List (String × Value)) :
    (isTruthy (dictGet resp "result" (Value.vBool false)) = false →
      dictGet resp "reason" (Value.vStr "Unknown error") = Value.vStr r →
      (∃ s t, honk_horn vin resp = ControlOutcome.commandError (s ++ r ++ t))
      ∧ (∃ s t, flash_lights vin resp
          = ControlOutcome.commandError (s ++ r ++ t)))
    ∧ (isTruthy (dictGet resp "result" (Value.vBool false)) = false →
      hasKey resp "reason" = false →
      (∃ s t, honk_horn vin resp
          = ControlOutcome.commandError (s ++ "Unknown error" ++ t))
      ∧ (∃ s t, flash_lights vin resp
          = ControlOutcome.commandError (s ++ "Unknown error" ++ t)))
    ∧ (isTruthy (dictGet resp "result" (Value.vBool false)) = true →
      honk_horn vin resp = ControlOutcome.ok "Successfully honked the horn!"
      ∧ flash_lights vin resp
        = ControlOutcome.ok "Successfully flashed the lights!") := by
  refine ⟨fun hf hr => ?_, fun hf hk => ?_, fun ht => ?_⟩
  · constructor
    · obtain ⟨s, t, hm⟩ := mkVCEM_contains_reason "honk_horn" r vin
      exact ⟨s, t, by simp [honk_horn, hf, hr, hm]⟩
    · obtain ⟨s, t, hm⟩ := mkVCEM_contains_reason "flash_lights" r vin
      exact ⟨s, t, by simp [flash_lights, hf, hr, hm]⟩
  · have hr : dictGet resp "reason" (Value.vStr "Unknown error")
        = Value.vStr "Unknown error" := dictGet_of_not_hasKey resp "reason" hk _
    constructor
    · obtain ⟨s, t, hm⟩ := mkVCEM_contains_reason "honk_horn" "Unknown error" vin
      exact ⟨s, t, by simp [honk_horn, hf, hr, hm]⟩
    · obtain ⟨s, t, hm⟩ :=
        mkVCEM_contains_reason "flash_lights" "Unknown error" vin
      exact ⟨s, t, by simp [flash_lights, hf, hr, hm]⟩
  · exact ⟨by simp [honk_horn, ht], by simp [flash_lights, ht]⟩

/-- C9 witness: the concrete response `result: false, reason:
"vehicle asleep"` yields an error message containing "vehicle asleep", and
the concrete response `result: true` yields the success message. -/
theorem command_failure_reason_witness :
    (∃ s t, honk_horn "5YJ3E1EA1KF123456"
        [("result", Value.vBool false), ("reason", Value.vStr "vehicle asleep")]
      = ControlOutcome.commandError (s ++ "vehicle asleep" ++ t))
    ∧ honk_horn "5YJ3E1EA1KF123456" [("result", Value.vBool true)]
      = ControlOutcome.ok "Successfully honked the horn!" :=
  ⟨((command_failure_reason "5YJ3E1EA1KF123456" "vehicle asleep"
      [("result", Value.vBool false),
       ("reason", Value.vStr "vehicle asleep")]).1 rfl rfl).1,
   ((command_failure_reason "5YJ3E1EA1KF123456" "vehicle asleep"
      [("result", Value.vBool true)]).2.2 rfl).1⟩

/-- C10: `sanitize_vin_for_logging` is total; every input shorter than 9
characters (the empty string included) maps to the fixed invalid marker,
and any two inputs of length at least 9 agreeing on their first 5 and last
4 characters map to the same output — the middle of a VIN never influences
the result. -/
theorem sanitize_vin_mask (vin v₁ v₂ : String) :
    (vin.length < 9 →
      sanitize_vin_for_logging vin = "***INVALID_VIN***")
    ∧ (9 ≤ v₁.length → 9 ≤ v₂.length →
      v₁.take 5 = v₂.take 5 →
      v₁.drop (v₁.length - 4) = v₂.drop (v₂.length - 4) →
      sanitize_vin_for_logging v₁ = sanitize_vin_for_logging v₂) := by
  constructor
  · intro h
    simp [sanitize_vin_for_logging, h]
  · intro h₁ h₂ ht hd
    have n₁ : ¬(v₁ = "" ∨ v₁.length < 9) := by
      rintro (rfl | h)
      · simp at h₁
      · omega
    have n₂ : ¬(v₂ = "" ∨ v₂.length < 9) := by
      rintro (rfl | h)
      · simp at h₂
      · omega
    simp [sanitize_vin_for_logging, n₁, n₂, ht, hd]

/-- C10 witness: two concrete VINs of different lengths sharing first 5 and
last 4 characters sanitize identically, and a short string maps to the
invalid marker. -/
theorem sanitize_vin_mask_witness :
    sanitize_vin_for_logging "5YJ3E1EA1KF123456"
      = sanitize_vin_for_logging "5YJ3EAAAA3456"
    ∧ sanitize_vin_for_logging "short" = "***INVALID_VIN***" :=
  ⟨(sanitize_vin_mask "" "5YJ3E1EA1KF123456" "5YJ3EAAAA3456").2
      (by decide) (by decide) (by decide) (by decide),
   (sanitize_vin_mask "short" "" "").1 (by decide)⟩

end TessieMCP
